import Mathlib

/-!
Verification of the GPU-resident particle/fiber simulation of the
GLBparticlesManipulation repository.

The WGSL compute shaders and the JS host code are shallowly embedded over
exact rationals (`ℚ`).  The WGSL builtin functions that are not expressible
as rational arithmetic (`sin`, `cos`, `acos`, and the square-root based
`length`) are abstracted into a `WgslLib` record that the embedded code is
parameterised over; the repository's own arithmetic, branching and buffer
write-backs are embedded verbatim.  The shader-local `snoise` function is
also kept abstract in `WgslLib`: both source variants of its body are
ill-typed WGSL (`a0.w`/`h.w` component accesses on `vec3` values and a
`vec4 *= vec3` assignment in `src/unnamed/part_003`, and a `C.www` swizzle
on a `vec2` in `src/js/modules/controls.js`), and no property below depends
on its values.  `curlNoise`, `hash`, and everything else is embedded from
the source.
-/

namespace GLBP

/-- A 3-component vector of exact rationals, modelling WGSL `vec3<f32>`. -/
structure Vec3 where
  x : ℚ
  y : ℚ
  z : ℚ
deriving DecidableEq, Repr

/-- Componentwise vector addition. -/
def addV (a b : Vec3) : Vec3 := ⟨a.x + b.x, a.y + b.y, a.z + b.z⟩

/-- Componentwise vector subtraction. -/
def subV (a b : Vec3) : Vec3 := ⟨a.x - b.x, a.y - b.y, a.z - b.z⟩

/-- Vector times scalar, modelling WGSL `v * s`. -/
def scaleV (a : Vec3) (s : ℚ) : Vec3 := ⟨a.x * s, a.y * s, a.z * s⟩

/-- Vector divided by scalar, modelling WGSL `v / s`. -/
def divV (a : Vec3) (s : ℚ) : Vec3 := ⟨a.x / s, a.y / s, a.z / s⟩

/-- Vector negation, modelling WGSL `-v`. -/
def negV (a : Vec3) : Vec3 := ⟨-a.x, -a.y, -a.z⟩

/-- Dot product of two vectors. -/
def dotV (a b : Vec3) : ℚ := a.x * b.x + a.y * b.y + a.z * b.z

/-- Scalar broadcast to all three components, modelling WGSL `vec3<f32>(s)`
and the implicit splat in `v + s`. -/
def splat3 (s : ℚ) : Vec3 := ⟨s, s, s⟩

/-- Squared euclidean norm; used to state the respawn-sphere property. -/
def normSq (a : Vec3) : ℚ := a.x ^ 2 + a.y ^ 2 + a.z ^ 2

/-- WGSL `fract`: fractional part, always in `[0, 1)`. -/
def fract (x : ℚ) : ℚ := x - ⌊x⌋

/-- WGSL `clamp(x, lo, hi) = min(max(x, lo), hi)`. -/
def clampQ (x lo hi : ℚ) : ℚ := min (max x lo) hi

/-- WGSL scalar `mix(a, b, t) = a * (1 - t) + b * t`. -/
def mixQ (a b t : ℚ) : ℚ := a * (1 - t) + b * t

/-- WGSL componentwise `mix` on vectors with scalar interpolant. -/
def mixV (a b : Vec3) (t : ℚ) : Vec3 := ⟨mixQ a.x b.x t, mixQ a.y b.y t, mixQ a.z b.z t⟩

/-- WGSL `smoothstep(e0, e1, x)`: Hermite interpolation of the clamped ratio. -/
def smoothstep (e0 e1 x : ℚ) : ℚ :=
  let t := clampQ ((x - e0) / (e1 - e0)) 0 1
  t * t * (3 - 2 * t)

/-- The WGSL builtins that have no exact rational counterpart, abstracted as
parameters of the embedding: trigonometric functions, the square-root based
vector `length`, and the (ill-typed in both source variants) `snoise`. -/
structure WgslLib where
  sin : ℚ → ℚ
  cos : ℚ → ℚ
  acos : ℚ → ℚ
  length : Vec3 → ℚ
  snoise : Vec3 → ℚ

/-- WGSL `normalize(v) = v / length(v)`. -/
def normalizeV (lib : WgslLib) (v : Vec3) : Vec3 := divV v (lib.length v)

/-- `hash` from the particle compute shader (`src/unnamed/part_003`,
also `src/js/modules/controls.js`):
`fract(sin(dot(p, vec3(12.9898, 78.233, 54.53))) * 43758.5453)`. -/
def hash (lib : WgslLib) (p : Vec3) : ℚ :=
  fract (lib.sin (dotV p ⟨12.9898, 78.233, 54.53⟩) * 43758.5453)

/-- `curlNoise` from the particle compute shader: finite differences of
`snoise` along the three axes at step `e = 0.1`, combined into a curl
vector and normalized. -/
def curlNoise (lib : WgslLib) (p : Vec3) : Vec3 :=
  let e : ℚ := 0.1
  let dx : Vec3 := ⟨e, 0, 0⟩
  let dy : Vec3 := ⟨0, e, 0⟩
  let dz : Vec3 := ⟨0, 0, e⟩
  let px0 := lib.snoise (subV p dx)
  let px1 := lib.snoise (addV p dx)
  let py0 := lib.snoise (subV p dy)
  let py1 := lib.snoise (addV p dy)
  let pz0 := lib.snoise (subV p dz)
  let pz1 := lib.snoise (addV p dz)
  let x := (py1 - py0) - (pz1 - pz0)
  let y := (pz1 - pz0) - (px1 - px0)
  let z := (px1 - px0) - (py1 - py0)
  normalizeV lib ⟨x, y, z⟩

/-- The per-particle record of the compute shaders (14-float layout:
position, velocity, life, size, color, target). -/
structure Particle where
  position : Vec3
  velocity : Vec3
  life : ℚ
  size : ℚ
  color : Vec3
  targetPos : Vec3
deriving DecidableEq, Repr

/-- The `Uniforms` record of the particle compute shader. -/
structure Uniforms where
  time : ℚ
  deltaTime : ℚ
  particleCount : ℚ
  gravity : ℚ
  turbulence : ℚ
  attraction : ℚ
  morphProgress : ℚ
  mousePosX : ℚ
  mousePosY : ℚ
  hoverRadius : ℚ
  hoverStrength : ℚ
  mouseInfluence : ℚ
  hoverRepulsion : ℚ
  respawnRate : ℚ
deriving DecidableEq, Repr

/-- Respawn branch of the particle shader (`src/unnamed/part_003` lines
126-139, `src/js/modules/controls.js` lines 115-124): re-seed position
uniformly-in-spherical-coordinates from hashes of the stale state, zero the
velocity, and re-seed life from a hash of the fresh position. -/
def respawn (lib : WgslLib) (u : Uniforms) (p : Particle) : Particle :=
  let randomVec : Vec3 :=
    ⟨hash lib (addV p.position (splat3 u.time)), hash lib p.velocity, hash lib p.targetPos⟩
  let theta := randomVec.x * 2 * 3.14159
  let phi := lib.acos (2 * randomVec.y - 1)
  let radius := randomVec.z * 5
  let newPos : Vec3 :=
    ⟨radius * lib.sin phi * lib.cos theta,
     radius * lib.sin phi * lib.sin theta,
     radius * lib.cos phi⟩
  { p with
      position := newPos
      velocity := ⟨0, 0, 0⟩
      life := 1 + hash lib newPos * 2 }

/-- Mouse-interaction force of the particle shader (`src/unnamed/part_003`
lines 159-177): zero force unless `hoverRadius > 0` and the particle is
strictly inside the hover radius; quadratic falloff, direction away from
the pointer when `hoverRepulsion > 0.5`, toward it otherwise. -/
def mouseForce (lib : WgslLib) (u : Uniforms) (p : Particle) : Vec3 :=
  if u.hoverRadius > 0 then
    let mousePos3D : Vec3 := ⟨u.mousePosX, u.mousePosY, 0⟩
    let mouseVec := subV p.position mousePos3D
    let mouseDistance := lib.length mouseVec
    if mouseDistance < u.hoverRadius then
      let direction := divV mouseVec mouseDistance
      let falloff := (1 - mouseDistance / u.hoverRadius) ^ 2
      let strength := falloff * u.hoverStrength * u.mouseInfluence
      if u.hoverRepulsion > 0.5 then scaleV direction strength
      else negV (scaleV direction strength)
    else ⟨0, 0, 0⟩
  else ⟨0, 0, 0⟩

/-- Force accumulation, integration and colour update of the particle
shader (`src/unnamed/part_003` lines 142-197): curl-noise turbulence,
gravity, morph-target attraction, mouse force; Euler integration with a
fixed 0.98 damping factor; velocity-magnitude colour ramp. -/
def applyForces (lib : WgslLib) (u : Uniforms) (targets : List Vec3) (index : ℕ)
    (p : Particle) : Particle :=
  let dt := u.deltaTime
  let noisePos := scaleV p.position 0.2
  let turbulenceForce :=
    scaleV (curlNoise lib (addV noisePos (splat3 (u.time * 0.05)))) u.turbulence
  let gravityForce : Vec3 := ⟨0, -u.gravity, 0⟩
  let attractionTarget :=
    if h : index < targets.length then
      mixV p.targetPos (targets.get ⟨index, h⟩) u.morphProgress
    else p.targetPos
  let targetForce := scaleV (subV attractionTarget p.position) u.attraction
  let mouseF := mouseForce lib u p
  let v1 := addV p.velocity
    (scaleV (addV (addV (addV turbulenceForce gravityForce) targetForce) mouseF) dt)
  let v2 := scaleV v1 0.98
  let newPos := addV p.position (scaleV v2 dt)
  let speed := clampQ (lib.length v2) 0 0.5
  let slowColor : Vec3 := ⟨0.1, 0.4, 0.9⟩
  let fastColor : Vec3 := ⟨1, 0.9, 0.3⟩
  { p with
      velocity := v2
      position := newPos
      color := mixV slowColor fastColor (smoothstep 0 0.5 speed) }

/-- One invocation of the particle compute shader `main` on the particle at
`index` (`src/unnamed/part_003` lines 115-198, `src/js/modules/controls.js`
lines 104-170): decrement life, take the respawn branch when it is
exhausted, then (in both cases) run the forces-and-integration section. -/
def particleMain (lib : WgslLib) (u : Uniforms) (targets : List Vec3) (index : ℕ)
    (p : Particle) : Particle :=
  let p1 := { p with life := p.life - u.deltaTime * u.respawnRate }
  let p2 := if p1.life ≤ 0 then respawn lib u p1 else p1
  applyForces lib u targets index p2

/-- The per-fiber record of the fiber compute shaders (`start`, `end`,
`strength`, `length`, `isActive`); `end` is a reserved word, so the index
fields carry the spec's names `startIndex`/`endIndex`. -/
structure Fiber where
  startIndex : ℕ
  endIndex : ℕ
  strength : ℚ
  length : ℚ
  isActive : ℚ
deriving DecidableEq, Repr

/-- Fallback element for guarded list reads (`particles` buffer). -/
def particle0 : Particle :=
  { position := ⟨0, 0, 0⟩, velocity := ⟨0, 0, 0⟩, life := 0, size := 0,
    color := ⟨0, 0, 0⟩, targetPos := ⟨0, 0, 0⟩ }

/-- Fallback element for guarded list reads (`fibers` buffer). -/
def fiber0 : Fiber :=
  { startIndex := 0, endIndex := 0, strength := 0, length := 0, isActive := 0 }

/-- The `FiberUniforms` record of the physics fiber shader in
`src/unnamed/part_003`. -/
structure FiberUniforms where
  maxDistance : ℚ
  springStrength : ℚ
  springDamping : ℚ
  deltaTime : ℚ
deriving DecidableEq, Repr

/-- One invocation of the fiber compute shader `main` of
`src/unnamed/part_003` (lines 251-325) on the fiber at `index`, returning
the updated fiber and particle buffers.  Inactive fibers are skipped;
over-stretched fibers are deactivated with no force applied; otherwise a
spring-plus-damping impulse is added to the start particle's velocity and
subtracted from the end particle's. -/
def fiberMain (lib : WgslLib) (u : FiberUniforms) (fibers : List Fiber)
    (particles : List Particle) (index : ℕ) : List Fiber × List Particle :=
  if index < fibers.length then
    let fiber := fibers.getD index fiber0
    if fiber.isActive < 0.5 then (fibers, particles)
    else if fiber.startIndex ≥ particles.length ∨ fiber.endIndex ≥ particles.length then
      (fibers, particles)
    else
      let startParticle := particles.getD fiber.startIndex particle0
      let endParticle := particles.getD fiber.endIndex particle0
      let vecBetween := subV endParticle.position startParticle.position
      let currentDistance := lib.length vecBetween
      if currentDistance > u.maxDistance then
        (fibers.set index { fiber with isActive := 0 }, particles)
      else if currentDistance < 0.0001 then (fibers, particles)
      else
        let direction := divV vecBetween currentDistance
        let displacement := currentDistance - fiber.length
        let springForceMagnitude := displacement * u.springStrength
        let springForce := scaleV direction springForceMagnitude
        let relativeVelocity := subV endParticle.velocity startParticle.velocity
        let velocityAlongAxis := dotV relativeVelocity direction
        let dampingForceMagnitude := velocityAlongAxis * u.springDamping
        let dampingForce := scaleV direction dampingForceMagnitude
        let totalForce := addV springForce dampingForce
        let deltaVelocity := scaleV totalForce u.deltaTime
        let startParticle2 :=
          { startParticle with velocity := addV startParticle.velocity deltaVelocity }
        let endParticle2 :=
          { endParticle with velocity := subV endParticle.velocity deltaVelocity }
        let fiber2 := { fiber with strength := lib.length totalForce }
        (fibers.set index fiber2,
         (particles.set fiber.startIndex startParticle2).set fiber.endIndex endParticle2)
  else (fibers, particles)

/-- A sequence of fiber-shader invocations at the given indices, folding
`fiberMain` over the joint buffer state. -/
def runFiberSteps (lib : WgslLib) (u : FiberUniforms) (idxs : List ℕ)
    (st : List Fiber × List Particle) : List Fiber × List Particle :=
  idxs.foldl (fun s i => fiberMain lib u s.1 s.2 i) st

/-- The `FiberUniforms` record of the fiber shader variant in
`src/js/modules/controls.js` and `src/js/modules/webgpu.js`
(`maxDistance`, `springStrength`, `damping`, `time`). -/
structure FiberUniformsCW where
  maxDistance : ℚ
  springStrength : ℚ
  damping : ℚ
  time : ℚ
deriving DecidableEq, Repr

/-- The spring force computed by the controls.js/webgpu.js fiber shader
after the `fiber.length = distance` overwrite:
`(distance - fiber.length) * springStrength` evaluated on the updated
fiber. -/
def fiberSpringForceCW (u : FiberUniformsCW) (fiberAfterLen : Fiber) (distance : ℚ) : ℚ :=
  (distance - fiberAfterLen.length) * u.springStrength

/-- Per-fiber body of the fiber compute shader of
`src/js/modules/controls.js` (lines 187-196) and `src/js/modules/webgpu.js`
(lines 113-131): for an active fiber it overwrites `length` with the
current endpoint distance, deactivates when over-stretched, and low-pass
filters `strength` toward the computed spring force; an inactive fiber is
returned unchanged. -/
def cwFiberBody (lib : WgslLib) (u : FiberUniformsCW) (fibers : List Fiber)
    (particles : List Particle) (index : ℕ) : Fiber :=
  let fiber := fibers.getD index fiber0
  if fiber.isActive > 0.5 then
    let startPos := (particles.getD fiber.startIndex particle0).position
    let endPos := (particles.getD fiber.endIndex particle0).position
    let distance := lib.length (subV endPos startPos)
    let fiber1 := { fiber with length := distance }
    let fiber2 := if distance > u.maxDistance then { fiber1 with isActive := 0 } else fiber1
    let springForce := fiberSpringForceCW u fiber2 distance
    { fiber2 with strength := mixQ fiber2.strength springForce u.damping }
  else fiber

/-- One invocation of the fiber compute shader `main` of
`src/js/modules/controls.js` (lines 183-198) and `src/js/modules/webgpu.js`
(lines 107-134) on the fiber at `index`: the particle binding of this
variant is `var<storage, read>`, so the pass writes back only the fiber
buffer and returns the particle buffer untouched. -/
def fiberMainCW (lib : WgslLib) (u : FiberUniformsCW) (fibers : List Fiber)
    (particles : List Particle) (index : ℕ) : List Fiber × List Particle :=
  if index < fibers.length then
    (fibers.set index (cwFiberBody lib u fibers particles index), particles)
  else (fibers, particles)

/-- Ease-in-out curve of the CPU fallback morph tween (`manualMorph` in
`src/unnamed/part_000`, lines 715-717):
`2p^2` below one half, `1 - (-2p + 2)^2 / 2` above. -/
def easedProgress (progress : ℚ) : ℚ :=
  if progress < 0.5 then 2 * progress * progress
  else 1 - (-2 * progress + 2) ^ 2 / 2

/-- One update of the CPU fallback morph tween (`manualMorph` in
`src/unnamed/part_000`, lines 719-721): every coordinate is interpolated
from its start value toward the destination by the eased progress. -/
def manualMorphPositions (startPositions dest : List ℚ) (progress : ℚ) : List ℚ :=
  List.zipWith (fun s d => s + (d - s) * easedProgress progress) startPositions dest

/-- The tween progress for a given elapsed time (`manualMorph`, line 712):
the linear ratio clamped to at most one. -/
def morphProgressAt (elapsed duration : ℚ) : ℚ := min (elapsed / duration) 1

/-- The host-side parameter snapshot fields consumed by `updateUniforms`
(`controlState` in `src/js/modules/controls.js`). -/
structure ControlParams where
  gravity : ℚ
  turbulence : ℚ
  attraction : ℚ
  morphProgress : ℚ
  mousePosX : ℚ
  mousePosY : ℚ
  hoverRadius : ℚ
  hoverStrength : ℚ
  mouseInfluence : ℚ
  hoverRepulsion : Bool
  respawnRate : ℚ
deriving DecidableEq, Repr

/-- JavaScript `x || d` on (non-NaN) numbers: `d` when `x` is the falsy
number `0`, `x` otherwise. -/
def jsOr (x d : ℚ) : ℚ := if x = 0 then d else x

/-- The 16-float `uniformData` array written by `updateUniforms`
(`src/unnamed/part_003` lines 498-514, `src/js/modules/controls.js` lines
326-332); every `params.f || d` is modelled by `jsOr`. -/
def uniformData (time deltaTime particleCount : ℚ) (params : ControlParams) : List ℚ :=
  [time, deltaTime, particleCount,
   jsOr params.gravity 0,
   jsOr params.turbulence 0.5,
   jsOr params.attraction 1,
   jsOr params.morphProgress 0,
   jsOr params.mousePosX 0,
   jsOr params.mousePosY 0,
   jsOr params.hoverRadius 3,
   jsOr params.hoverStrength 2,
   jsOr params.mouseInfluence 1,
   (if params.hoverRepulsion then 1 else 0),
   jsOr params.respawnRate 0.2,
   0, 0]

/-- Events seen by the render loop's readback protocol: a frame with a
given `morphProgress` snapshot, or the resolution of one outstanding
asynchronous readback. -/
inductive ReadbackEvent where
  | frame (morphProgress : ℚ)
  | resolve
deriving DecidableEq, Repr

/-- In-flight readback count after one event of the `animate` loop
(`src/unnamed/part_000` lines 792-805): a frame with `morphProgress > 0`
calls `syncWebGPUParticles()` without awaiting it and without consulting
any pending flag, so it unconditionally starts one more readback; a
resolution retires one. -/
def readbackStep (pending : ℕ) : ReadbackEvent → ℕ
  | ReadbackEvent.frame mp => if mp > 0 then pending + 1 else pending
  | ReadbackEvent.resolve => pending - 1

/-- In-flight readback count after a sequence of loop events. -/
def readbackRun (pending : ℕ) (evs : List ReadbackEvent) : ℕ :=
  evs.foldl readbackStep pending

/-! Concrete instances used by counterexamples and witnesses. -/

/-- A concrete instantiation of the abstract WGSL builtins, used to
evaluate the embedded shaders at specific inputs: trivial trigonometric
functions satisfying `sin² + cos² = 1`, and the 1-norm as `length` (which
agrees with the euclidean length on the axis-aligned vectors used below). -/
def libW : WgslLib :=
  { sin := fun _ => 0
    cos := fun _ => 1
    acos := fun _ => 0
    length := fun v => |v.x| + |v.y| + |v.z|
    snoise := fun _ => 0 }

/-- A particle at the origin with one half second of life left. -/
def pZero : Particle :=
  { position := ⟨0, 0, 0⟩, velocity := ⟨0, 0, 0⟩, life := 1/2, size := 1,
    color := ⟨0, 0, 0⟩, targetPos := ⟨0, 0, 0⟩ }

/-- Uniforms that make `pZero` take the respawn branch in one step while
gravity is the only force (turbulence and attraction zero, pointer off). -/
def uC1 : Uniforms :=
  { time := 0, deltaTime := 1, particleCount := 1, gravity := 1, turbulence := 0,
    attraction := 0, morphProgress := 0, mousePosX := 0, mousePosY := 0,
    hoverRadius := 0, hoverStrength := 0, mouseInfluence := 0, hoverRepulsion := 0,
    respawnRate := 1 }

/-- Uniforms for the pointer-force scenario: repel mode, radius 5, strength
and influence 1. -/
def uMouse : Uniforms :=
  { time := 0, deltaTime := 1, particleCount := 1, gravity := 0, turbulence := 0,
    attraction := 0, morphProgress := 0, mousePosX := 0, mousePosY := 0,
    hoverRadius := 5, hoverStrength := 1, mouseInfluence := 1, hoverRepulsion := 1,
    respawnRate := 0 }

/-- Uniforms with a negative hover radius. -/
def uNoRadius : Uniforms :=
  { time := 0, deltaTime := 1, particleCount := 1, gravity := 0, turbulence := 0,
    attraction := 0, morphProgress := 0, mousePosX := 0, mousePosY := 0,
    hoverRadius := -1, hoverStrength := 1, mouseInfluence := 1, hoverRepulsion := 1,
    respawnRate := 0 }

/-- A particle at distance 2.5 from the origin pointer. -/
def pMouse : Particle := { pZero with position := ⟨5/2, 0, 0⟩ }

/-- An all-zero host parameter snapshot. -/
def paramsZ : ControlParams :=
  { gravity := 0, turbulence := 0, attraction := 0, morphProgress := 0,
    mousePosX := 0, mousePosY := 0, hoverRadius := 0, hoverStrength := 0,
    mouseInfluence := 0, hoverRepulsion := false, respawnRate := 0 }

/-- A particle whose life is already exhausted at the start of a step. -/
def pDead : Particle := { pZero with life := 0 }

/-- An active fiber between particles 0 and 1 with rest length 1. -/
def fibBreak : Fiber :=
  { startIndex := 0, endIndex := 1, strength := 1/2, length := 1, isActive := 1 }

/-- Fiber uniforms: break distance 10, unit spring, no damping, unit step. -/
def uFib : FiberUniforms :=
  { maxDistance := 10, springStrength := 1, springDamping := 0, deltaTime := 1 }

/-- A particle 20 units from the origin (beyond the break distance). -/
def pFar : Particle := { particle0 with position := ⟨20, 0, 0⟩ }

/-- A particle closer to the origin than the shader's 0.0001 epsilon. -/
def pEps : Particle := { particle0 with position := ⟨1/20000, 0, 0⟩ }

/-- A particle 3 units from the origin (the spec's spring scenario). -/
def pSpring : Particle := { particle0 with position := ⟨3, 0, 0⟩ }

/-- An active fiber with rest length 2 for the controls/webgpu variant. -/
def fibCW : Fiber :=
  { startIndex := 0, endIndex := 1, strength := 1/2, length := 2, isActive := 1 }

/-- Fiber uniforms of the controls/webgpu variant (damping 0.05). -/
def uCW : FiberUniformsCW :=
  { maxDistance := 10, springStrength := 1, damping := 1/20, time := 0 }

/-! Helper lemmas. -/

theorem fract_nonneg (x : ℚ) : 0 ≤ fract x := by
  have h := Int.floor_le x
  simp only [fract]
  linarith

theorem fract_lt_one (x : ℚ) : fract x < 1 := by
  have h := Int.lt_floor_add_one x
  simp only [fract]
  linarith

theorem hash_nonneg (lib : WgslLib) (p : Vec3) : 0 ≤ hash lib p := fract_nonneg _

theorem hash_lt_one (lib : WgslLib) (p : Vec3) : hash lib p < 1 := fract_lt_one _

theorem getD_set_ne {α : Type _} :
    ∀ (l : List α) (i j : ℕ) (a d : α), i ≠ j →
      (l.set i a).getD j d = l.getD j d := by
  intro l
  induction l with
  | nil => intro i j a d _; rfl
  | cons x xs ih =>
    intro i j a d hij
    cases i with
    | zero =>
      cases j with
      | zero => exact absurd rfl hij
      | succ j => rfl
    | succ i =>
      cases j with
      | zero => rfl
      | succ j => simpa using ih i j a d (by omega)

theorem getD_set_self {α : Type _} :
    ∀ (l : List α) (i : ℕ) (a d : α), i < l.length →
      (l.set i a).getD i d = a := by
  intro l
  induction l with
  | nil => intro i a d h; simp at h
  | cons x xs ih =>
    intro i a d h
    cases i with
    | zero => rfl
    | succ i => simpa using ih i a d (by simpa using h)

theorem zipWith_eq_right {f : ℚ → ℚ → ℚ} (hf : ∀ a b, f a b = b) :
    ∀ (s d : List ℚ), s.length = d.length → List.zipWith f s d = d := by
  intro s
  induction s with
  | nil =>
    intro d h
    cases d with
    | nil => rfl
    | cons y ys => simp at h
  | cons x xs ih =>
    intro d h
    cases d with
    | nil => simp at h
    | cons y ys => simp [hf, ih ys (by simpa using h)]

theorem life_seed_bounds (lib : WgslLib) (v : Vec3) :
    1 ≤ 1 + hash lib v * 2 ∧ 1 + hash lib v * 2 < 3 := by
  constructor
  · nlinarith [hash_nonneg lib v]
  · nlinarith [hash_lt_one lib v]

theorem respawn_sphere_bound (lib : WgslLib)
    (htrig : ∀ t, lib.sin t ^ 2 + lib.cos t ^ 2 = 1)
    (r θ φ : ℚ) (hr0 : 0 ≤ r) (hr5 : r < 5) :
    normSq ⟨r * lib.sin φ * lib.cos θ, r * lib.sin φ * lib.sin θ, r * lib.cos φ⟩ < 25 := by
  have h1 := htrig θ
  have h2 := htrig φ
  have key : normSq ⟨r * lib.sin φ * lib.cos θ, r * lib.sin φ * lib.sin θ, r * lib.cos φ⟩
      = r ^ 2 := by
    simp only [normSq]
    linear_combination (r ^ 2 * lib.sin φ ^ 2) * h1 + r ^ 2 * h2
  rw [key]
  nlinarith

/-! Claim theorems. -/

/-- C1 counterexample: with gravity as the only force and a particle whose
life runs out, the state after the step is not the bare respawn reset — the
forces-and-integration section still runs in the same tick, so the
post-step velocity is nonzero. -/
theorem C1_counterexample :
    particleMain libW uC1 [] 0 pZero ≠
      respawn libW uC1 { pZero with life := pZero.life - uC1.deltaTime * uC1.respawnRate } ∧
    (particleMain libW uC1 [] 0 pZero).velocity ≠ ⟨0, 0, 0⟩ := by
  have hL : (particleMain libW uC1 [] 0 pZero).velocity = ⟨0, -49/50, 0⟩ := by
    simp [particleMain, applyForces, respawn, mouseForce, hash, curlNoise, normalizeV,
      fract, dotV, addV, subV, scaleV, divV, negV, splat3, mixV, mixQ, libW, uC1, pZero]
    norm_num
  have hR : (respawn libW uC1
      { pZero with life := pZero.life - uC1.deltaTime * uC1.respawnRate }).velocity
      = ⟨0, 0, 0⟩ := rfl
  constructor
  · intro h
    rw [h, hR] at hL
    simp only [Vec3.mk.injEq] at hL
    norm_num at hL
  · intro h
    rw [h] at hL
    simp only [Vec3.mk.injEq] at hL
    norm_num at hL

/-- C1 (amended): when life reaches ≤ 0 the respawn reset runs first (with
a zeroed velocity), but the forces-and-integration section is not skipped:
the post-step state is the reset state further advanced by the same
forces-and-integration update applied to every particle, computed from the
freshly reset position and velocity. -/
theorem C1_respawn_then_forces (lib : WgslLib) (u : Uniforms) (targets : List Vec3)
    (index : ℕ) (p : Particle)
    (h : p.life - u.deltaTime * u.respawnRate ≤ 0) :
    particleMain lib u targets index p =
      applyForces lib u targets index
        (respawn lib u { p with life := p.life - u.deltaTime * u.respawnRate }) ∧
    (respawn lib u { p with life := p.life - u.deltaTime * u.respawnRate }).velocity
      = ⟨0, 0, 0⟩ := by
  refine ⟨?_, rfl⟩
  simp only [particleMain]
  rw [if_pos h]

/-- C1 witness: the amended statement evaluated at the counterexample
input. -/
theorem C1_respawn_then_forces_witness :
    particleMain libW uC1 [] 0 pZero =
      applyForces libW uC1 [] 0
        (respawn libW uC1 { pZero with life := pZero.life - uC1.deltaTime * uC1.respawnRate }) ∧
    (respawn libW uC1
      { pZero with life := pZero.life - uC1.deltaTime * uC1.respawnRate }).velocity
      = ⟨0, 0, 0⟩ :=
  C1_respawn_then_forces libW uC1 [] 0 pZero (by norm_num [pZero, uC1])

/-- C2: the respawn branch re-seeds life into `[1, 3)`, zeroes the
velocity, and places the particle strictly inside the sphere of radius 5
centred at the origin — all on the same output state, so a fresh life never
coexists with a stale position or velocity. -/
theorem C2_respawn_reset (lib : WgslLib) (u : Uniforms) (p : Particle)
    (htrig : ∀ t, lib.sin t ^ 2 + lib.cos t ^ 2 = 1)
    (hlife : p.life ≤ 0) :
    1 ≤ (respawn lib u p).life ∧ (respawn lib u p).life < 3 ∧
    (respawn lib u p).velocity = ⟨0, 0, 0⟩ ∧
    normSq (respawn lib u p).position < 25 := by
  refine ⟨?_, ?_, rfl, ?_⟩
  · simp only [respawn]
    exact (life_seed_bounds lib _).1
  · simp only [respawn]
    exact (life_seed_bounds lib _).2
  · simp only [respawn]
    exact respawn_sphere_bound lib htrig _ _ _
      (by nlinarith [hash_nonneg lib p.targetPos])
      (by nlinarith [hash_lt_one lib p.targetPos])

/-- C2 witness: the respawn invariants evaluated on a concrete exhausted
particle with a concrete builtin instantiation. -/
theorem C2_respawn_reset_witness :
    1 ≤ (respawn libW uC1 pDead).life ∧ (respawn libW uC1 pDead).life < 3 ∧
    (respawn libW uC1 pDead).velocity = ⟨0, 0, 0⟩ ∧
    normSq (respawn libW uC1 pDead).position < 25 :=
  C2_respawn_reset libW uC1 pDead
    (fun t => by show (0:ℚ) ^ 2 + 1 ^ 2 = 1; norm_num)
    (by norm_num [pDead, pZero])

/-- C3 counterexample: two consecutive morphing frames with no resolution
in between leave two readbacks in flight, refuting "at most one
asynchronous readback is in flight at a time; a new request is skipped
while one is pending". -/
theorem C3_counterexample :
    ¬ readbackRun 0 [ReadbackEvent.frame 1, ReadbackEvent.frame 1] ≤ 1 := by
  norm_num [readbackRun, readbackStep, List.foldl]

/-- C3 (amended): the render loop never awaits the readback (it is issued
fire-and-forget), but it also never skips one: a frame with
`morphProgress > 0` starts a new readback regardless of how many are
already pending, so the number in flight is not bounded by one. -/
theorem C3_readback_unguarded (pending : ℕ) (mp : ℚ) (h : 0 < mp) :
    readbackStep pending (ReadbackEvent.frame mp) = pending + 1 := by
  simp [readbackStep, h]

/-- C3 witness: a second morphing frame on top of one pending readback
yields two in flight. -/
theorem C3_readback_unguarded_witness :
    readbackStep 1 (ReadbackEvent.frame 1) = 2 :=
  C3_readback_unguarded 1 1 (by norm_num)

/-- C6: inside the hover radius the pointer force is the quadratic-falloff
magnitude `(1 - d/R)² · hoverStrength · mouseInfluence` along the unit
vector away from the pointer (repel mode, `hoverRepulsion > 0.5`) or toward
it (attract mode); at or beyond the radius the force is zero. -/
theorem C6_pointer_force (lib : WgslLib) (u : Uniforms) (p : Particle) (d : ℚ)
    (hr : 0 < u.hoverRadius)
    (hd : lib.length (subV p.position ⟨u.mousePosX, u.mousePosY, 0⟩) = d) :
    (d < u.hoverRadius →
      mouseForce lib u p =
        (if u.hoverRepulsion > 0.5 then
          scaleV (divV (subV p.position ⟨u.mousePosX, u.mousePosY, 0⟩) d)
            ((1 - d / u.hoverRadius) ^ 2 * u.hoverStrength * u.mouseInfluence)
        else
          negV (scaleV (divV (subV p.position ⟨u.mousePosX, u.mousePosY, 0⟩) d)
            ((1 - d / u.hoverRadius) ^ 2 * u.hoverStrength * u.mouseInfluence)))) ∧
    (u.hoverRadius ≤ d → mouseForce lib u p = ⟨0, 0, 0⟩) := by
  constructor
  · intro hlt
    simp only [mouseForce, hd]
    rw [if_pos hr, if_pos hlt]
  · intro hge
    simp only [mouseForce, hd]
    rw [if_pos hr, if_neg (not_lt.mpr hge)]

/-- C6 witness: repel mode, radius 5, strength 1, influence 1, particle at
distance 2.5 → force `(0.25, 0, 0)`, i.e. magnitude 0.25 away from the
pointer. -/
theorem C6_pointer_force_witness : mouseForce libW uMouse pMouse = ⟨1/4, 0, 0⟩ := by
  have h := (C6_pointer_force libW uMouse pMouse (5/2)
    (by norm_num [uMouse])
    (by norm_num [libW, uMouse, pMouse, pZero, subV])).1
    (by norm_num [uMouse])
  rw [h]
  norm_num [uMouse, pMouse, pZero, subV, divV, scaleV]

/-- C7: a non-positive hover radius (zero or negative) yields a zero
pointer force; the per-particle update is a total function, so the
dispatch completes without failing. -/
theorem C7_nonpositive_radius (lib : WgslLib) (u : Uniforms) (p : Particle)
    (h : u.hoverRadius ≤ 0) : mouseForce lib u p = ⟨0, 0, 0⟩ := by
  simp only [mouseForce]
  rw [if_neg (not_lt.mpr h)]

/-- C7 witness: hover radius −1 yields zero pointer force. -/
theorem C7_nonpositive_radius_witness : mouseForce libW uNoRadius pZero = ⟨0, 0, 0⟩ :=
  C7_nonpositive_radius libW uNoRadius pZero (by norm_num [uNoRadius])

/-- C8: the CPU fallback morph tween's ease-in-out curve satisfies
`e(0) = 0`, `e(1) = 1`, `e(0.5) = 0.5`, is strictly increasing on `[0, 1]`,
and at progress 1 the interpolation reproduces the destination array
exactly for every coordinate. -/
theorem C8_ease_and_morph :
    easedProgress 0 = 0 ∧ easedProgress 1 = 1 ∧ easedProgress (1/2) = 1/2 ∧
    (∀ p q : ℚ, 0 ≤ p → p < q → q ≤ 1 → easedProgress p < easedProgress q) ∧
    (∀ startPositions dest : List ℚ, startPositions.length = dest.length →
      manualMorphPositions startPositions dest 1 = dest) := by
  refine ⟨by norm_num [easedProgress], by norm_num [easedProgress],
    by norm_num [easedProgress], ?_, ?_⟩
  · intro p q hp hpq hq
    unfold easedProgress
    split_ifs with h1 h2 h2
    · nlinarith
    · have h3 : (0:ℚ) ≤ 2 - 2 * q := by linarith
      have h4 : (2:ℚ) - 2 * q ≤ 1 := by
        have : ¬ q < (0.5 : ℚ) := h2
        push_neg at this
        norm_num at this
        linarith
      have h5 : ((-2) * q + 2) ^ 2 ≤ 1 := by nlinarith
      have h6 : 2 * p * p < 1 / 2 := by
        have : p < (0.5 : ℚ) := h1
        norm_num at this
        nlinarith
      linarith
    · push_neg at h1
      linarith
    · have h3 : (0:ℚ) ≤ 2 - 2 * q := by linarith
      have h4 : (2:ℚ) - 2 * q < 2 - 2 * p := by linarith
      have h5 : ((-2) * q + 2) ^ 2 < ((-2) * p + 2) ^ 2 := by nlinarith
      linarith
  · intro s d h
    exact zipWith_eq_right (fun a b => by norm_num [easedProgress]) s d h

/-- C8 witness: the curve increases from 1/4 to 3/4, and a concrete morph
at progress 1 returns the destination list. -/
theorem C8_ease_and_morph_witness :
    easedProgress (1/4) < easedProgress (3/4) ∧
    manualMorphPositions [0, 2, -1] [10, -5, 7] 1 = [10, -5, 7] :=
  ⟨C8_ease_and_morph.2.2.2.1 (1/4) (3/4) (by norm_num) (by norm_num) (by norm_num),
   C8_ease_and_morph.2.2.2.2 [0, 2, -1] [10, -5, 7] rfl⟩

/-- C10: `updateUniforms` replaces a zero snapshot value by a nonzero
default for turbulence (0.5), attraction (1), respawn rate (0.2), hover
radius (3), hover strength (2) and mouse influence (1) — so zero cannot
reach the simulation for these parameters — while gravity 0 is written
through unchanged. -/
theorem C10_uniform_defaults (time deltaTime particleCount : ℚ) (params : ControlParams) :
    (params.turbulence = 0 → (uniformData time deltaTime particleCount params).getD 4 0 = 0.5) ∧
    (params.attraction = 0 → (uniformData time deltaTime particleCount params).getD 5 0 = 1) ∧
    (params.respawnRate = 0 → (uniformData time deltaTime particleCount params).getD 13 0 = 0.2) ∧
    (params.hoverRadius = 0 → (uniformData time deltaTime particleCount params).getD 9 0 = 3) ∧
    (params.hoverStrength = 0 → (uniformData time deltaTime particleCount params).getD 10 0 = 2) ∧
    (params.mouseInfluence = 0 → (uniformData time deltaTime particleCount params).getD 11 0 = 1) ∧
    ((uniformData time deltaTime particleCount params).getD 4 0 ≠ 0 ∧
     (uniformData time deltaTime particleCount params).getD 5 0 ≠ 0 ∧
     (uniformData time deltaTime particleCount params).getD 9 0 ≠ 0 ∧
     (uniformData time deltaTime particleCount params).getD 10 0 ≠ 0 ∧
     (uniformData time deltaTime particleCount params).getD 11 0 ≠ 0 ∧
     (uniformData time deltaTime particleCount params).getD 13 0 ≠ 0) ∧
    (uniformData time deltaTime particleCount params).getD 3 0 = params.gravity := by
  refine ⟨?_, ?_, ?_, ?_, ?_, ?_, ⟨?_, ?_, ?_, ?_, ?_, ?_⟩, ?_⟩
  · intro h; show jsOr params.turbulence 0.5 = 0.5; simp [jsOr, h]
  · intro h; show jsOr params.attraction 1 = 1; simp [jsOr, h]
  · intro h; show jsOr params.respawnRate 0.2 = 0.2; simp [jsOr, h]
  · intro h; show jsOr params.hoverRadius 3 = 3; simp [jsOr, h]
  · intro h; show jsOr params.hoverStrength 2 = 2; simp [jsOr, h]
  · intro h; show jsOr params.mouseInfluence 1 = 1; simp [jsOr, h]
  · show jsOr params.turbulence 0.5 ≠ 0; unfold jsOr; split_ifs with h <;> norm_num [h]
  · show jsOr params.attraction 1 ≠ 0; unfold jsOr; split_ifs with h <;> norm_num [h]
  · show jsOr params.hoverRadius 3 ≠ 0; unfold jsOr; split_ifs with h <;> norm_num [h]
  · show jsOr params.hoverStrength 2 ≠ 0; unfold jsOr; split_ifs with h <;> norm_num [h]
  · show jsOr params.mouseInfluence 1 ≠ 0; unfold jsOr; split_ifs with h <;> norm_num [h]
  · show jsOr params.respawnRate 0.2 ≠ 0; unfold jsOr; split_ifs with h <;> norm_num [h]
  · show jsOr params.gravity 0 = params.gravity
    unfold jsOr; split_ifs with h <;> simp [h]

theorem fiberMain_inactive_persist (lib : WgslLib) (u : FiberUniforms)
    (fibers : List Fiber) (particles : List Particle) (i j : ℕ)
    (h : (fibers.getD j fiber0).isActive < 0.5) :
    (((fiberMain lib u fibers particles i).1.getD j fiber0)).isActive < 0.5 := by
  simp only [fiberMain]
  split_ifs with h0 h1 h2 h3 h4
  · exact h
  · exact h
  · rcases eq_or_ne i j with rfl | hij
    · exact absurd h h1
    · rw [getD_set_ne _ _ _ _ _ hij]; exact h
  · exact h
  · rcases eq_or_ne i j with rfl | hij
    · exact absurd h h1
    · rw [getD_set_ne _ _ _ _ _ hij]; exact h
  · exact h

theorem runFiberSteps_inactive_persist (lib : WgslLib) (u : FiberUniforms) :
    ∀ (idxs : List ℕ) (fibers : List Fiber) (particles : List Particle) (j : ℕ),
      (fibers.getD j fiber0).isActive < 0.5 →
      ((runFiberSteps lib u idxs (fibers, particles)).1.getD j fiber0).isActive < 0.5 := by
  intro idxs
  induction idxs with
  | nil => intro fibers particles j h; exact h
  | cons i idxs ih =>
    intro fibers particles j h
    have h2 := fiberMain_inactive_persist lib u fibers particles i j h
    have h3 := ih (fiberMain lib u fibers particles i).1
      (fiberMain lib u fibers particles i).2 j h2
    simpa [runFiberSteps, List.foldl] using h3

/-- C4: an active fiber whose endpoint separation exceeds `maxDistance` is
deactivated with no velocity change to either endpoint particle, and under
any sequence of fiber-shader invocations an inactive fiber never becomes
active again (it is skipped entirely). -/
theorem C4_break_and_no_reactivation :
    (∀ (lib : WgslLib) (u : FiberUniforms) (fibers : List Fiber)
      (particles : List Particle) (i : ℕ),
      i < fibers.length →
      ¬ (fibers.getD i fiber0).isActive < 0.5 →
      ¬ ((fibers.getD i fiber0).startIndex ≥ particles.length ∨
         (fibers.getD i fiber0).endIndex ≥ particles.length) →
      lib.length (subV (particles.getD (fibers.getD i fiber0).endIndex particle0).position
        (particles.getD (fibers.getD i fiber0).startIndex particle0).position) > u.maxDistance →
      fiberMain lib u fibers particles i =
        (fibers.set i { fibers.getD i fiber0 with isActive := 0 }, particles)) ∧
    (∀ (lib : WgslLib) (u : FiberUniforms) (idxs : List ℕ) (fibers : List Fiber)
      (particles : List Particle) (j : ℕ),
      (fibers.getD j fiber0).isActive < 0.5 →
      ((runFiberSteps lib u idxs (fibers, particles)).1.getD j fiber0).isActive < 0.5) := by
  constructor
  · intro lib u fibers particles i hi ha hb hd
    simp only [fiberMain]
    rw [if_pos hi, if_neg ha, if_neg hb, if_pos hd]
  · exact fun lib u => runFiberSteps_inactive_persist lib u

/-- C4 witness: a fiber stretched to separation 20 with break distance 10
is deactivated and the particle buffer is untouched; an inactive fiber
stays inactive over three further invocations. -/
theorem C4_break_and_no_reactivation_witness :
    fiberMain libW uFib [fibBreak] [particle0, pFar] 0 =
      ([fibBreak].set 0 { [fibBreak].getD 0 fiber0 with isActive := 0 }, [particle0, pFar]) ∧
    ((runFiberSteps libW uFib [0, 0, 0]
      ([{ fibBreak with isActive := 0 }], [particle0, pFar])).1.getD 0 fiber0).isActive < 0.5 :=
  ⟨C4_break_and_no_reactivation.1 libW uFib [fibBreak] [particle0, pFar] 0
      (by norm_num)
      (by norm_num [fibBreak, List.getD])
      (by norm_num [fibBreak, List.getD])
      (by norm_num [fibBreak, libW, uFib, particle0, pFar, subV, List.getD]),
   C4_break_and_no_reactivation.2 libW uFib [0, 0, 0]
      [{ fibBreak with isActive := 0 }] [particle0, pFar] 0
      (by norm_num [fibBreak, List.getD])⟩

/-- C5 counterexample: endpoints separated by 0.00005 — a nonzero
separation below the break distance for which the claim predicts a nonzero
spring impulse — are left completely unchanged by the fiber update, because
the shader skips separations below its 0.0001 epsilon guard. -/
theorem C5_counterexample :
    fiberMain libW uFib [fibBreak] [particle0, pEps] 0 = ([fibBreak], [particle0, pEps]) ∧
    libW.length (subV pEps.position particle0.position) ≠ 0 ∧
    libW.length (subV pEps.position particle0.position) ≤ uFib.maxDistance ∧
    (libW.length (subV pEps.position particle0.position) - fibBreak.length)
      * uFib.springStrength ≠ 0 := by
  have habs : |(1:ℚ)/20000| = 1/20000 := abs_of_pos (by norm_num)
  refine ⟨?_, ?_, ?_, ?_⟩ <;>
    norm_num [fiberMain, libW, uFib, fibBreak, particle0, pEps, subV, List.getD, habs]

/-- C5 (amended): for an active in-bounds fiber whose endpoint separation
is at most `maxDistance` and at least the shader's 0.0001 epsilon, the
update adds the impulse `((d − restLength)·springStrength +
(relVel·dir)·springDamping) · dir · deltaTime` to the start particle's
velocity and subtracts it from the end particle's, and records the total
force magnitude in the fiber's `strength`. -/
theorem C5_spring_force (lib : WgslLib) (u : FiberUniforms) (fibers : List Fiber)
    (particles : List Particle) (i : ℕ)
    (hi : i < fibers.length)
    (ha : ¬ (fibers.getD i fiber0).isActive < 0.5)
    (hb : ¬ ((fibers.getD i fiber0).startIndex ≥ particles.length ∨
             (fibers.getD i fiber0).endIndex ≥ particles.length))
    (hd1 : ¬ lib.length (subV (particles.getD (fibers.getD i fiber0).endIndex particle0).position
        (particles.getD (fibers.getD i fiber0).startIndex particle0).position) > u.maxDistance)
    (hd2 : ¬ lib.length (subV (particles.getD (fibers.getD i fiber0).endIndex particle0).position
        (particles.getD (fibers.getD i fiber0).startIndex particle0).position) < 0.0001) :
    fiberMain lib u fibers particles i =
      (let fiber := fibers.getD i fiber0
       let startParticle := particles.getD fiber.startIndex particle0
       let endParticle := particles.getD fiber.endIndex particle0
       let vecBetween := subV endParticle.position startParticle.position
       let d := lib.length vecBetween
       let direction := divV vecBetween d
       let springForce := scaleV direction ((d - fiber.length) * u.springStrength)
       let dampingForce := scaleV direction
         (dotV (subV endParticle.velocity startParticle.velocity) direction * u.springDamping)
       let totalForce := addV springForce dampingForce
       let deltaVelocity := scaleV totalForce u.deltaTime
       (fibers.set i { fiber with strength := lib.length totalForce },
        (particles.set fiber.startIndex
          { startParticle with velocity := addV startParticle.velocity deltaVelocity }).set
          fiber.endIndex
          { endParticle with velocity := subV endParticle.velocity deltaVelocity })) := by
  simp only [fiberMain]
  rw [if_pos hi, if_neg ha, if_neg hb, if_neg hd1, if_neg hd2]

/-- C5 witness: the spec's scenario — endpoints at (0,0,0) and (3,0,0),
rest length 1, spring strength 1, no damping, unit time step, break
distance 10 — yields a velocity delta of magnitude 2 along +x for the
start particle and −x for the end particle. -/
theorem C5_spring_force_witness :
    fiberMain libW uFib [fibBreak] [particle0, pSpring] 0 =
      ([{ fibBreak with strength := 2 }],
       [{ particle0 with velocity := ⟨2, 0, 0⟩ }, { pSpring with velocity := ⟨-2, 0, 0⟩ }]) := by
  rw [C5_spring_force libW uFib [fibBreak] [particle0, pSpring] 0
    (by norm_num)
    (by norm_num [fibBreak, List.getD])
    (by norm_num [fibBreak, List.getD])
    (by norm_num [fibBreak, libW, uFib, particle0, pSpring, subV, List.getD])
    (by norm_num [fibBreak, libW, uFib, particle0, pSpring, subV, List.getD])]
  norm_num [libW, uFib, fibBreak, particle0, pSpring, subV, addV, scaleV, divV, dotV,
    List.getD, Fiber.mk.injEq, Particle.mk.injEq, Vec3.mk.injEq]

/-- C9: in the controls.js/webgpu.js fiber shader variant the particle
binding is read-only, so the pass leaves every particle unchanged; a
fiber's endpoint indices never change (only `length`, `isActive` and
`strength` can); the computed spring force is exactly zero because
`fiber.length` is overwritten with the current distance before the force
`(distance − fiber.length)·springStrength` is computed; hence the strength
low-pass filter decays toward zero. -/
theorem C9_cw_fiber_pass :
    (∀ (lib : WgslLib) (u : FiberUniformsCW) (fibers : List Fiber)
      (particles : List Particle) (i : ℕ),
      (fiberMainCW lib u fibers particles i).2 = particles) ∧
    (∀ (lib : WgslLib) (u : FiberUniformsCW) (fibers : List Fiber)
      (particles : List Particle) (i j : ℕ),
      ((fiberMainCW lib u fibers particles i).1.getD j fiber0).startIndex
          = (fibers.getD j fiber0).startIndex ∧
      ((fiberMainCW lib u fibers particles i).1.getD j fiber0).endIndex
          = (fibers.getD j fiber0).endIndex) ∧
    (∀ (u : FiberUniformsCW) (fiber : Fiber) (distance : ℚ),
      fiberSpringForceCW u { fiber with length := distance } distance = 0) ∧
    (∀ (lib : WgslLib) (u : FiberUniformsCW) (fibers : List Fiber)
      (particles : List Particle) (i : ℕ),
      i < fibers.length →
      (fibers.getD i fiber0).isActive > 0.5 →
      ((fiberMainCW lib u fibers particles i).1.getD i fiber0).strength
          = mixQ (fibers.getD i fiber0).strength 0 u.damping) := by
  refine ⟨?_, ?_, ?_, ?_⟩
  · intro lib u fibers particles i
    simp only [fiberMainCW]
    split_ifs <;> rfl
  · intro lib u fibers particles i j
    simp only [fiberMainCW]
    split_ifs with h0
    · rcases eq_or_ne i j with rfl | hij
      · rw [getD_set_self _ _ _ _ h0]
        constructor
        · simp only [cwFiberBody]
          split_ifs <;> rfl
        · simp only [cwFiberBody]
          split_ifs <;> rfl
      · rw [getD_set_ne _ _ _ _ _ hij]
        exact ⟨rfl, rfl⟩
    · exact ⟨rfl, rfl⟩
  · intro u fiber distance
    simp [fiberSpringForceCW]
  · intro lib u fibers particles i h0 hact
    have hstep : (fiberMainCW lib u fibers particles i).1 =
        fibers.set i (cwFiberBody lib u fibers particles i) := by
      simp only [fiberMainCW]
      rw [if_pos h0]
    rw [hstep, getD_set_self _ _ _ _ h0]
    simp only [cwFiberBody]
    rw [if_pos hact]
    split_ifs <;> simp [fiberSpringForceCW, mixQ]

/-- C9 witness: a concrete active fiber (rest length 2, endpoints 3 apart,
damping 0.05) leaves the particle buffer unchanged and decays its strength
by the damping mix with a zero spring force. -/
theorem C9_cw_fiber_pass_witness :
    (fiberMainCW libW uCW [fibCW] [particle0, pSpring] 0).2 = [particle0, pSpring] ∧
    ((fiberMainCW libW uCW [fibCW] [particle0, pSpring] 0).1.getD 0 fiber0).strength
        = mixQ ([fibCW].getD 0 fiber0).strength 0 uCW.damping :=
  ⟨C9_cw_fiber_pass.1 libW uCW [fibCW] [particle0, pSpring] 0,
   C9_cw_fiber_pass.2.2.2 libW uCW [fibCW] [particle0, pSpring] 0
     (by norm_num)
     (by norm_num [fibCW, List.getD])⟩

/-- C10 witness: an all-zero snapshot receives the documented defaults,
and its zero gravity is preserved. -/
theorem C10_uniform_defaults_witness :
    (uniformData 0 (1/60) 2500 paramsZ).getD 4 0 = 0.5 ∧
    (uniformData 0 (1/60) 2500 paramsZ).getD 13 0 = 0.2 ∧
    (uniformData 0 (1/60) 2500 paramsZ).getD 3 0 = paramsZ.gravity :=
  ⟨(C10_uniform_defaults 0 (1/60) 2500 paramsZ).1 rfl,
   (C10_uniform_defaults 0 (1/60) 2500 paramsZ).2.2.1 rfl,
   (C10_uniform_defaults 0 (1/60) 2500 paramsZ).2.2.2.2.2.2.2⟩

end GLBP
